import Mathlib

/-!
Verification of the `BaseDataSource` reactive container from
`src/app/projects/data-sources/src/lib/base.data-source.ts`.

The class wraps asynchronous retrieval of list data in RxJS
`BehaviorSubject`s (`data$`, `count$`, `loading$`, `itemLoading$`,
`filter$`) and exposes a derived filtered view (`filteredData$`).
We embed it shallowly:

* a `BehaviorSubject` becomes a `Subject`: its current value (`_value` in
  RxJS, read through `.value`) plus a completion flag.  In RxJS 7,
  `BehaviorSubject.next` assigns `_value` unconditionally (even after
  `complete`), and `complete` only stops emissions, so `next` updates
  `val` and `complete` sets `done`;
* the container state becomes the structure `BaseDataSource`;
* each `async` method becomes a state-passing function.  The one
  `await`ed effect (the combined retrieval + transform produced by the
  abstract `retrieveDataItems` and the `transformDataItems` hook) is
  passed in as an `Except` value: `Except.ok r` models the promise
  resolving with `r`, `Except.error e` models it rejecting with `e`;
* JavaScript strings become Lean `String`s, with `toLowerCase`, `trim`
  and `indexOf(..) != -1` re-implemented structurally over the
  character list so that they evaluate inside the kernel;
* an object value of the row type `FinalDataItemsT` becomes a `DataItem`:
  its fields in `Object.keys` (insertion) order, each field value
  represented by `Option String` — `none` for `null`/`undefined`,
  `some s` for a non-null value whose `toString()` is `s`.  A possibly
  null row of `data$` is an `Option DataItem` (`none` for a
  `null`/`undefined` entry, which JavaScript treats as falsy).
-/

/-- JavaScript `String.prototype.toLowerCase`, applied character by
character (all characters in the claims are in the basic plane). -/
def lowerStr (s : String) : String := ⟨s.data.map Char.toLower⟩

/-- JavaScript `String.prototype.trim`: drop whitespace from both ends. -/
def trimStr (s : String) : String :=
  ⟨((s.data.dropWhile Char.isWhitespace).reverse.dropWhile Char.isWhitespace).reverse⟩

/-- Helper for `strContains`: does `pat` occur contiguously in the list? -/
def occursIn (pat : List Char) : List Char → Bool
  | [] => pat.isEmpty
  | c :: t => pat.isPrefixOf (c :: t) || occursIn pat t

/-- JavaScript `s.indexOf(pat) != -1`: `pat` occurs as a substring of `s`. -/
def strContains (s pat : String) : Bool := occursIn pat.data s.data

/-- One field value of a row object: `none` models `null`/`undefined`,
`some s` models a non-null value stringifying to `s`. -/
abbrev FieldValue := Option String

/-- A row object of type `FinalDataItemsT`: its fields as
`(key, value)` pairs in `Object.keys` insertion order. -/
abbrev DataItem := List (String × FieldValue)

/-- Modelled from the spec: `PageableResult<T>` is declared in
`data-sources.model.ts`, which is absent from `src/`; the spec gives
`{ results: ordered sequence of T, count: optional total-item count }`
with the count a non-negative integer. -/
structure PageableResult (α : Type) where
  results : List α
  count : Option Nat
deriving DecidableEq

/-- An RxJS subject — the `BehaviorSubject`s of `BaseDataSource`, and
the plain `Subject` used for `destroy$`: the last pushed value plus a
completion flag. -/
structure Subject (α : Type) where
  val : α
  done : Bool
deriving DecidableEq

/-- `subject.next(v)`: in RxJS 7 `BehaviorSubject.next` assigns `_value`
unconditionally; completion only suppresses deliveries to subscribers. -/
def Subject.next (s : Subject α) (v : α) : Subject α := { s with val := v }

/-- `subject.complete()`. -/
def Subject.complete (s : Subject α) : Subject α := { s with done := true }

/-- The observable state of a `BaseDataSource<_, α>` instance:
fields `data$`, `count$`, `loading$`, `itemLoading$`, `filter$`,
`initialized`, the abstract `allowLocalFilter`, and `destroy` — the
notifier `destroy$: Subject<boolean>` inherited from the parent class
`DestroyObservable` (its source, `destroy-observable.ts`, appears in
`src/docs/structural-directives.md`).  `destroy$` is a plain RxJS
`Subject`; we reuse `Subject` for it, `val` holding the last emitted
value (`false` initially, before anything is emitted).  The only
`next` on it precedes its `complete`, so the shared model is exact.
The `connect`ed / filtered stream ends through
`takeUntil(this.destroy$)` (line 60) when `destroy$` fires. -/
structure BaseDataSource (α : Type) where
  data : Subject (List α)
  count : Subject Nat
  loading : Subject Bool
  itemLoading : Subject Bool
  filter : Subject String
  initialized : Bool
  destroy : Subject Bool
  allowLocalFilter : Bool
deriving DecidableEq

/-- The state right after the constructor runs: `data$ = []`,
`count$ = 0`, `loading$ = false`, `itemLoading$ = false`,
`filter$ = ""`, `initialized = false`; `allowLocalFilter` is supplied
by the concrete subclass. -/
def BaseDataSource.init (allow : Bool) : BaseDataSource α where
  data := ⟨[], false⟩
  count := ⟨0, false⟩
  loading := ⟨false, false⟩
  itemLoading := ⟨false, false⟩
  filter := ⟨"", false⟩
  initialized := false
  destroy := ⟨false, false⟩
  allowLocalFilter := allow

/-- `propToString(key, value)` (lines 127-130): `""` for a
`null`/`undefined` value, otherwise `value.toString()` — which the
`FieldValue` encoding carries directly. -/
def propToString (key : String) (value : FieldValue) : String :=
  match value with
  | none => ""
  | some v => v

/-- The lowercased search string built inside `filterPredicate`
(lines 149-160): fold over the fields in key order, appending each
stringified value followed by the delimiter `"◬"` (white up-pointing
triangle with dot), then lowercase the whole. -/
def dataStr (data : DataItem) : String :=
  lowerStr (data.foldl
    (fun currentTerm kv => currentTerm ++ propToString kv.1 kv.2 ++ "◬") "")

/-- `filterPredicate(data, filter)` (lines 147-166): trim and lowercase
the filter, and test whether it occurs in the delimited, lowercased
concatenation of the row's stringified field values
(`dataStr.indexOf(transformedFilter) != -1`). -/
def filterPredicate (data : DataItem) (filter : String) : Bool :=
  strContains (dataStr data) (lowerStr (trimStr filter))

/-- The view computed by the `initializeFiltering` pipeline
(lines 73-87) from the current `data$` value and `filter$` value: when
the filter text is falsy (empty) or `allowLocalFilter` is false the
data passes through unchanged, otherwise rows are kept when truthy
(non-null) and matching `filterPredicate`. -/
def filteredData (allowLocalFilter : Bool) (data : List (Option DataItem))
    (filterValue : String) : List (Option DataItem) :=
  if filterValue = "" ∨ allowLocalFilter = false then data
  else data.filter (fun item =>
    match item with
    | some x => filterPredicate x filterValue
    | none => false)

/-- The current value of the derived `filteredData$` stream: the
pipeline reads `this.data$.value` and `this.filter$.value` at each
(re)emission, so the observed view is this function of the state. -/
def BaseDataSource.filteredItems (s : BaseDataSource (Option DataItem)) :
    List (Option DataItem) :=
  filteredData s.allowLocalFilter s.data.val s.filter.val

/-- `actualDataLength` (lines 28-30): the number of truthy (non-null)
entries of `data$.value`. -/
def BaseDataSource.actualDataLength (s : BaseDataSource (Option DataItem)) : Nat :=
  (s.data.val.filter (fun a => a.isSome)).length

/-- The spec's `setFilterText(text)` entry point: consumers push into
`filter$` (line 33), i.e. `this.filter$.next(text)`. -/
def BaseDataSource.setFilterText (s : BaseDataSource α) (text : String) :
    BaseDataSource α :=
  { s with filter := s.filter.next text }

/-- `retrieveFinalData` (lines 175-178): await the abstract
`retrieveDataItems` (its settled outcome is the argument `retrieved`),
then await `transformDataItems` on the result.  A rejection of either
stage propagates. -/
def retrieveFinalData (retrieved : Except ε (PageableResult β))
    (transformDataItems : PageableResult β → Except ε (PageableResult α)) :
    Except ε (PageableResult α) :=
  match retrieved with
  | .error e => .error e
  | .ok pagedDataItems => transformDataItems pagedDataItems

/-- `initializeData` (lines 183-188): await `retrieveFinalData` (its
settled outcome is `outcome`); on resolution publish
`transformedData.results` into `data$` and
`transformedData.count || transformedData.results.length` into
`count$` (JavaScript `||`: a `count` of `0` is falsy and falls back to
the results length, exactly like an absent `count`), then return the
transformed result; on rejection nothing is published and the
rejection propagates. -/
def BaseDataSource.initializeData (s : BaseDataSource α)
    (outcome : Except ε (PageableResult α)) :
    BaseDataSource α × Except ε (PageableResult α) :=
  match outcome with
  | .error e => (s, .error e)
  | .ok transformedData =>
    ({ s with
        data := s.data.next transformedData.results
        count := s.count.next
          (match transformedData.count with
            | some c => if c = 0 then transformedData.results.length else c
            | none => transformedData.results.length) },
      .ok transformedData)

/-- `initialize` (lines 92-100): set `initialized = true`, then inside
`try` push `loading$ = true` and await `initializeData`; the `finally`
block pushes `loading$ = false` on both resolution and rejection, and
a rejection then propagates to the caller. -/
def BaseDataSource.initialize (s : BaseDataSource α)
    (outcome : Except ε (PageableResult α)) :
    BaseDataSource α × Except ε Unit :=
  let s1 := { s with initialized := true }
  let s2 := { s1 with loading := s1.loading.next true }
  match s2.initializeData outcome with
  | (s3, .ok _) => ({ s3 with loading := s3.loading.next false }, .ok ())
  | (s3, .error e) => ({ s3 with loading := s3.loading.next false }, .error e)

/-- `refresh` (lines 217-222): push `loading$ = true`, await
`initializeData`, push `loading$ = false`, return the results.  There
is no `try`/`finally` here: when `initializeData` rejects, the
statement `this.loading$.next(false)` is never reached and the
rejection propagates with the loading flag still `true`. -/
def BaseDataSource.refresh (s : BaseDataSource α)
    (outcome : Except ε (PageableResult α)) :
    BaseDataSource α × Except ε (PageableResult α) :=
  let s1 := { s with loading := s.loading.next true }
  match s1.initializeData outcome with
  | (s2, .ok results) => ({ s2 with loading := s2.loading.next false }, .ok results)
  | (s2, .error e) => (s2, .error e)

/-- `reset` (lines 105-108): push `[]` into `data$` and `0` into
`count$`.  It takes no retrieval outcome: no retrieval is performed. -/
def BaseDataSource.reset (s : BaseDataSource α) : BaseDataSource α :=
  { s with data := s.data.next [], count := s.count.next 0 }

/-- `onDestroy` of the parent class `DestroyObservable` (its source,
`destroy-observable.ts`, appears in `src/docs/structural-directives.md`):
`this.destroy$.next(true); this.destroy$.complete()` — fire the destroy
notifier, which terminates the `connect`ed / filtered stream through
`takeUntil(this.destroy$)` (line 60), then complete it. -/
def BaseDataSource.onDestroy (s : BaseDataSource α) : BaseDataSource α :=
  { s with destroy := (s.destroy.next true).complete }

/-- `disconnect` (lines 63-68) — the spec's `dispose()`: call
`onDestroy()`, then complete `data$`, `itemLoading$` and `loading$`.
Note that `count$` is not completed here. -/
def BaseDataSource.disconnect (s : BaseDataSource α) : BaseDataSource α :=
  let s1 := s.onDestroy
  let s2 := { s1 with data := s1.data.complete }
  let s3 := { s2 with itemLoading := s2.itemLoading.complete }
  { s3 with loading := s3.loading.complete }

/-- Concrete rows for the spec's filtering scenarios. -/
def alItem : DataItem := [("name", some "Al"), ("city", some "Reno")]

/-- Second row of the filtering-correctness scenario. -/
def boItem : DataItem := [("name", some "Bo"), ("city", some "Reno")]

/-- Row of the cross-field false-positive scenario. -/
def foItem : DataItem := [("a", some "fo"), ("b", some "o")]

/-- C1: As stated, the claim asserts that `isLoading` is `false` at the
moment a rejection propagates, for `refresh()` just as for
`initialize()`.  This is false for `refresh()`: it has no
`try`/`finally`, so a rejecting cycle leaves `loading$` at `true` while
the rejection propagates — shown here on the freshly constructed
container with a rejecting retrieval. -/
theorem c1_counterexample :
    ((BaseDataSource.init true : BaseDataSource Nat).refresh
        (Except.error () : Except Unit (PageableResult Nat))).2 =
      Except.error () ∧
    ((BaseDataSource.init true : BaseDataSource Nat).refresh
        (Except.error () : Except Unit (PageableResult Nat))).1.loading.val = true :=
  ⟨rfl, rfl⟩

/-- C1 (amended): `initialize()` resets the loading flag to `false`
before it completes, on resolution and on rejection alike (the
`finally` block); `refresh()` resets it only on resolution — when the
underlying cycle rejects, `loading$` remains `true` as the rejection
propagates. -/
theorem c1_loading_reset (α ε : Type) (s : BaseDataSource α)
    (o : Except ε (PageableResult α)) :
    ( BaseDataSource.initialize s o).1.loading.val = false ∧
    (match o with
      | .ok _ => (s.refresh o).1.loading.val = false
      | .error _ => (s.refresh o).1.loading.val = true) := by
  cases o <;> exact ⟨rfl, rfl⟩

/-- C2: As stated, the claim asserts `totalCount = transformItems(R).count`
whenever the source provides an explicit count.  False for an explicit
count of `0` with non-empty results: JavaScript
`transformedData.count || transformedData.results.length` treats `0` as
falsy, so for `R = {results: [5], count: 0}` the published total is `1`
(the results length), not the explicit `0`. -/
theorem c2_counterexample :
    ( BaseDataSource.initialize (BaseDataSource.init true : BaseDataSource Nat)
        (Except.ok ({ results := [5], count := some 0 } : PageableResult Nat) :
          Except Unit (PageableResult Nat))).1.count.val ≠ 0 ∧
    ( BaseDataSource.initialize (BaseDataSource.init true : BaseDataSource Nat)
        (Except.ok ({ results := [5], count := some 0 } : PageableResult Nat) :
          Except Unit (PageableResult Nat))).1.count.val = 1 := by
  exact ⟨by decide, rfl⟩

/-- C2 (amended): after `initialize()` resolves successfully with
transformed result `R`, `items = R.results`, and `totalCount = R.count`
when the source provides an explicit non-zero count, otherwise (count
absent or `0`, both falsy in JavaScript) `R.results.length`.  In
particular the spec scenario holds: for
`{results: [1,2,3], count: 10}`, `items = [1,2,3]` and
`totalCount = 10`. -/
theorem c2_publish (α ε : Type) :
    (∀ (s : BaseDataSource α) (r : PageableResult α),
      ( BaseDataSource.initialize s (Except.ok r : Except ε (PageableResult α))).1.data.val =
        r.results ∧
      ( BaseDataSource.initialize s (Except.ok r : Except ε (PageableResult α))).1.count.val =
        (match r.count with
          | some c => if c = 0 then r.results.length else c
          | none => r.results.length)) ∧
    ( BaseDataSource.initialize (BaseDataSource.init true : BaseDataSource Nat)
        (Except.ok ({ results := [1, 2, 3], count := some 10 } : PageableResult Nat) :
          Except Unit (PageableResult Nat))).1.data.val = [1, 2, 3] ∧
    ( BaseDataSource.initialize (BaseDataSource.init true : BaseDataSource Nat)
        (Except.ok ({ results := [1, 2, 3], count := some 10 } : PageableResult Nat) :
          Except Unit (PageableResult Nat))).1.count.val = 10 :=
  ⟨fun _ _ => ⟨rfl, rfl⟩, rfl, rfl⟩

/-- C3: when the retrieval+transform cycle rejects, neither
`initialize()` nor `refresh()` touches `data$` or `count$`: the
previous snapshot survives unchanged (value and completion state of
both subjects).  Moreover `retrieveFinalData` rejects exactly when
`retrieveDataItems` rejects (the error short-circuits past the
transform) or when `transformDataItems` itself rejects on the retrieved
page. -/
theorem c3_failure_preserves_snapshot (α β ε : Type) (s : BaseDataSource α)
    (e : ε) :
    ( BaseDataSource.initialize s (Except.error e : Except ε (PageableResult α))).1.data = s.data ∧
    ( BaseDataSource.initialize s (Except.error e : Except ε (PageableResult α))).1.count = s.count ∧
    (s.refresh (Except.error e : Except ε (PageableResult α))).1.data = s.data ∧
    (s.refresh (Except.error e : Except ε (PageableResult α))).1.count = s.count ∧
    (∀ t : PageableResult β → Except ε (PageableResult α),
      retrieveFinalData (Except.error e) t = Except.error e) ∧
    (∀ (p : PageableResult β) (t : PageableResult β → Except ε (PageableResult α)),
      retrieveFinalData (Except.ok p) t = t p) :=
  ⟨rfl, rfl, rfl, rfl, fun _ => rfl, fun _ _ => rfl⟩

/-- C4: with local filtering enabled and a non-empty filter text, a
non-null row is in the filtered view iff it is in the snapshot and the
trimmed, lowercased filter text occurs as a substring of the
delimiter-joined, lowercased concatenation of the row's stringified
field values.  The spec scenarios hold: filter `"al"` over
`[{name:"Al", city:"Reno"}, {name:"Bo", city:"Reno"}]` retains only the
first row, and filter `"foo"` over `[{a:"fo", b:"o"}]` retains
nothing. -/
theorem c4_filter_membership :
    (∀ (data : List (Option DataItem)) (x : DataItem) (f : String), f ≠ "" →
      ((some x ∈ filteredData true data f) ↔
        (some x ∈ data ∧ strContains (dataStr x) (lowerStr (trimStr f)) = true))) ∧
    filteredData true [some alItem, some boItem] "al" = [some alItem] ∧
    filteredData true [some foItem] "foo" = [] := by
  refine ⟨fun data x f hf => ?_, by decide, by decide⟩
  unfold filteredData
  rw [if_neg]
  · exact List.mem_filter
  · rintro (h | h)
    · exact hf h
    · exact Bool.noConfusion h

/-- C4 witness: the membership characterisation applied at the concrete
snapshot `[{name:"Al", city:"Reno"}, {name:"Bo", city:"Reno"}]` with the
non-empty filter `"al"`. -/
theorem c4_witness :
    (some alItem ∈ filteredData true [some alItem, some boItem] "al") ↔
      (some alItem ∈ [some alItem, some boItem] ∧
        strContains (dataStr alItem) (lowerStr (trimStr "al")) = true) :=
  c4_filter_membership.1 [some alItem, some boItem] alItem "al" (by decide)

/-- C5: whenever the filter text is empty or local filtering is
disabled, the derived view is the snapshot itself, elements and order
untouched. -/
theorem c5_identity_view (s : BaseDataSource (Option DataItem))
    (h : s.filter.val = "" ∨ s.allowLocalFilter = false) :
    s.filteredItems = s.data.val := by
  unfold BaseDataSource.filteredItems filteredData
  exact if_pos h

/-- C5 witness: the freshly constructed container has an empty filter
text, so its filtered view equals its (empty) snapshot. -/
theorem c5_witness :
    (BaseDataSource.init true : BaseDataSource (Option DataItem)).filteredItems =
      (BaseDataSource.init true : BaseDataSource (Option DataItem)).data.val :=
  c5_identity_view (BaseDataSource.init true) (Or.inl rfl)

/-- C6: As stated, the claim asserts that a single `dispose()`
(`disconnect`) completes every exposed stream, including `totalCount`.
False: `disconnect` completes `data$`, `itemLoading$` and `loading$`
but never calls `count$.complete()`, so after disposing the freshly
constructed container the `totalCount` stream is still not
completed. -/
theorem c6_counterexample :
    ((BaseDataSource.init true : BaseDataSource Nat).disconnect).count.done = false :=
  rfl

/-- C6 (amended): a single `dispose()` (`disconnect`) completes the
`items`, `isLoading` and `itemLoading` streams and fires and completes
the destroy notifier `destroy$` (which terminates the `connect`ed
filtered stream through `takeUntil`), but it leaves the `totalCount`
stream exactly as it was: `count$` is never completed. -/
theorem c6_dispose_completes (α : Type) (s : BaseDataSource α) :
    s.disconnect.data.done = true ∧
    s.disconnect.loading.done = true ∧
    s.disconnect.itemLoading.done = true ∧
    s.disconnect.destroy.val = true ∧
    s.disconnect.destroy.done = true ∧
    s.disconnect.count = s.count :=
  ⟨rfl, rfl, rfl, rfl, rfl, rfl⟩

/-- C7: `reset()` synchronously publishes the empty list into `items`
and `0` into `totalCount`, and changes nothing else: the loading flags,
the filter text, the `initialized` flag, the destroy notifier, the
filtering mode, and the completion state of `data$` and `count$` are
all exactly as before; no retrieval outcome enters `reset` at all. -/
theorem c7_reset_frame (α : Type) (s : BaseDataSource α) :
    s.reset.data.val = [] ∧
    s.reset.count.val = 0 ∧
    s.reset.loading = s.loading ∧
    s.reset.itemLoading = s.itemLoading ∧
    s.reset.filter = s.filter ∧
    s.reset.initialized = s.initialized ∧
    s.reset.destroy = s.destroy ∧
    s.reset.allowLocalFilter = s.allowLocalFilter ∧
    s.reset.data.done = s.data.done ∧
    s.reset.count.done = s.count.done :=
  ⟨rfl, rfl, rfl, rfl, rfl, rfl, rfl, rfl, rfl, rfl⟩

/-- C8: pushing the same filter text twice leaves the container in
exactly the state one push produces (so in particular the filtered view
is the same), and the filtered view is the pure function
`filteredData` of `(allowLocalFilter, items, filterText)` — no further
mutable state enters it. -/
theorem c8_filter_idempotent (s : BaseDataSource (Option DataItem)) (f : String) :
    (s.setFilterText f).setFilterText f = s.setFilterText f ∧
    ((s.setFilterText f).setFilterText f).filteredItems =
      (s.setFilterText f).filteredItems ∧
    (s.setFilterText f).filteredItems =
      filteredData s.allowLocalFilter s.data.val f :=
  ⟨rfl, rfl, rfl⟩

/-- C9: `initialize()` sets `initialized = true` as its first statement,
before the retrieval+transform cycle is awaited, so the flag is `true`
when `initialize()` returns whether the cycle resolves or rejects. -/
theorem c9_initialized_flag (α ε : Type) (s : BaseDataSource α)
    (o : Except ε (PageableResult α)) :
    ( BaseDataSource.initialize s o).1.initialized = true := by
  cases o <;> rfl

/-- C10: filtering is total on degenerate data: with local filtering
enabled and a non-empty filter text, a `null`/`undefined` row is never
in the filtered view (the truthiness guard rejects it before
`filterPredicate` runs), and the default `propToString` maps a
`null`/`undefined` field value to the empty string, so the predicate is
evaluated without ever dereferencing `null`. -/
theorem c10_null_safe :
    (∀ (data : List (Option DataItem)) (f : String), f ≠ "" →
      (none : Option DataItem) ∉ filteredData true data f) ∧
    (∀ k : String, propToString k none = "") := by
  refine ⟨fun data f hf hmem => ?_, fun _ => rfl⟩
  unfold filteredData at hmem
  rw [if_neg] at hmem
  · exact Bool.noConfusion (List.mem_filter.mp hmem).2
  · rintro (h | h)
    · exact hf h
    · exact Bool.noConfusion h

/-- C10 witness: the null row is excluded from the filtered view of the
concrete snapshot `[null, {}]` under the non-empty filter `"x"`. -/
theorem c10_witness :
    (none : Option DataItem) ∉ filteredData true [none, some []] "x" :=
  c10_null_safe.1 [none, some []] "x" (by decide)
